import Mathlib

/-!
Verification development for the GPSapp2 repository.

The repository stores buildings (GPS-located) owning door lists, classifies
each building to a map-marker color from (congregationId, language), encodes
door labels into a single comma-separated text field, and normalizes
heterogeneous coordinate field names on the read side.

Embedded components (translated from the TypeScript source):
* classification: `calculatePinColor` (backend, src/backend/app/api/door/route.ts,
  lines 26-37) and `calculatePinColorClient` (client Map component, Map.tsx,
  lines 97-125);
* the info codec: join with ", " on write, split/trim/drop-empty on read;
* the aggregate store: POST (create building + doors) and PUT
  (update building, delete doors, recreate doors) of the aggregate API route,
  modelled as explicit state passing over a `Store`;
* the read-side coordinate normalization of the building-edit page
  (`loadBuildingData`, lines 141-166).
-/

/-! ## ClassificationEngine -/

/-- JavaScript `String.prototype.toLowerCase`, modelled as a per-character
lowercase map over the string's characters (the language names used by the
app are plain ASCII, where the two coincide). -/
def jsToLowerCase (s : String) : String :=
  String.mk (s.data.map Char.toLower)

/-- Base language index table shared by the backend route and the client Map
component: english=1, tamil=2, hindi=3, telugu=4, malayalam=5, anything else 1.
Source: `map[language.toLowerCase()] || 1` with the five-entry map
(`src/backend/app/api/door/route.ts` lines 27-31, Map.tsx lines 99-105). -/
def langBase (language : String) : Int :=
  if jsToLowerCase language = "english" then 1
  else if jsToLowerCase language = "tamil" then 2
  else if jsToLowerCase language = "hindi" then 3
  else if jsToLowerCase language = "telugu" then 4
  else if jsToLowerCase language = "malayalam" then 5
  else 1

/-- Backend pin-color helper, `src/backend/app/api/door/route.ts` lines 26-37:
`if (congregationId === 1) return base; const pin = ((congregationId - 1) * 5) + base;
return Math.min(pin, 15);`. -/
def calculatePinColor (congregationId : Int) (language : String) : Int :=
  if congregationId = 1 then langBase language
  else min ((congregationId - 1) * 5 + langBase language) 15

/-- Client pin-color helper, Map.tsx lines 97-125: same base map, but values
above 15 wrap: `if (pinColor > 15) pinColor = ((pinColor - 1) % 15) + 1;`.
For `pinColor > 15` the dividend `pinColor - 1` is positive, so JavaScript `%`
agrees with `Int.emod` here. -/
def calculatePinColorClient (congregationId : Int) (language : String) : Int :=
  if congregationId = 1 then langBase language
  else if (congregationId - 1) * 5 + langBase language > 15 then
    ((congregationId - 1) * 5 + langBase language - 1) % 15 + 1
  else (congregationId - 1) * 5 + langBase language

theorem langBase_bounds (language : String) :
    1 ≤ langBase language ∧ langBase language ≤ 5 := by
  unfold langBase
  split <;> try norm_num
  split <;> try norm_num
  split <;> try norm_num
  split <;> try norm_num
  split <;> norm_num

/-- C1 counterexample. The backend classification function
(`src/backend/app/api/door/route.ts`) does not wrap values above 15: at
congregationId 4 and language "english" the raw value is (4-1)*5+1 = 16, the
claimed wraparound ((16-1) mod 15)+1 would give 1, but the function returns
`Math.min(16, 15) = 15`. -/
theorem calculatePinColor_no_wrap :
    (4 - 1) * 5 + langBase "english" = 16 ∧
    ((16 - 1) % 15 + 1 : Int) = 1 ∧
    calculatePinColor 4 "english" = 15 ∧
    calculatePinColor 4 "english" ≠ 1 := by
  refine ⟨by decide, by decide, by decide, by decide⟩

/-- C1 (amended). The client classification function satisfies the reference
values, the wraparound rule, and the range [1,15] for congregationId ≥ 1; the
backend function satisfies the same reference values but clamps raw values
above 15 to 15 (Math.min) instead of wrapping, and also stays within [1,15]
for congregationId ≥ 1. -/
theorem classification_reference_values (cid : Int) (language : String)
    (hcid : 1 ≤ cid) :
    calculatePinColorClient 1 "english" = 1 ∧
    calculatePinColorClient 1 "tamil" = 2 ∧
    calculatePinColorClient 2 "english" = 6 ∧
    calculatePinColor 1 "english" = 1 ∧
    calculatePinColor 1 "tamil" = 2 ∧
    calculatePinColor 2 "english" = 6 ∧
    (1 ≤ calculatePinColorClient cid language ∧
      calculatePinColorClient cid language ≤ 15) ∧
    (1 ≤ calculatePinColor cid language ∧ calculatePinColor cid language ≤ 15) ∧
    (cid ≠ 1 → 15 < (cid - 1) * 5 + langBase language →
      calculatePinColorClient cid language =
        ((cid - 1) * 5 + langBase language - 1) % 15 + 1 ∧
      calculatePinColor cid language = 15) := by
  obtain ⟨hb1, hb2⟩ := langBase_bounds language
  refine ⟨by decide, by decide, by decide, by decide, by decide, by decide, ?_, ?_, ?_⟩
  · unfold calculatePinColorClient
    by_cases h1 : cid = 1
    · rw [if_pos h1]
      exact ⟨hb1, by omega⟩
    · rw [if_neg h1]
      by_cases h15 : (cid - 1) * 5 + langBase language > 15
      · rw [if_pos h15]
        have hpos : (0 : Int) < 15 := by norm_num
        have hmn := Int.emod_nonneg ((cid - 1) * 5 + langBase language - 1)
          (by norm_num : (15 : Int) ≠ 0)
        have hmx := Int.emod_lt_of_pos ((cid - 1) * 5 + langBase language - 1) hpos
        omega
      · rw [if_neg h15]
        omega
  · unfold calculatePinColor
    by_cases h1 : cid = 1
    · rw [if_pos h1]
      exact ⟨hb1, by omega⟩
    · rw [if_neg h1]
      constructor
      · apply le_min <;> omega
      · exact min_le_right _ _
  · intro h1 h15
    constructor
    · unfold calculatePinColorClient
      rw [if_neg h1, if_pos h15]
    · unfold calculatePinColor
      rw [if_neg h1]
      exact min_eq_right (by omega)

/-- C1 witness: the amended classification statement instantiated at
congregationId 4 and language "english", where the raw value is 16. -/
theorem classification_reference_values_witness :
    (1 : Int) ≤ 4 ∧
    (calculatePinColorClient 1 "english" = 1 ∧
    calculatePinColorClient 1 "tamil" = 2 ∧
    calculatePinColorClient 2 "english" = 6 ∧
    calculatePinColor 1 "english" = 1 ∧
    calculatePinColor 1 "tamil" = 2 ∧
    calculatePinColor 2 "english" = 6 ∧
    (1 ≤ calculatePinColorClient 4 "english" ∧
      calculatePinColorClient 4 "english" ≤ 15) ∧
    (1 ≤ calculatePinColor 4 "english" ∧ calculatePinColor 4 "english" ≤ 15) ∧
    ((4 : Int) ≠ 1 → 15 < ((4 : Int) - 1) * 5 + langBase "english" →
      calculatePinColorClient 4 "english" =
        (((4 : Int) - 1) * 5 + langBase "english" - 1) % 15 + 1 ∧
      calculatePinColor 4 "english" = 15)) :=
  ⟨by decide, classification_reference_values 4 "english" (by decide)⟩

/-- C8 counterexample. The backend and client classification functions are not
extensionally equal: at congregationId 4 and language "english" the backend
clamps to 15 while the client wraps to 1. -/
theorem calculatePinColor_drift :
    calculatePinColor 4 "english" = 15 ∧
    calculatePinColorClient 4 "english" = 1 ∧
    calculatePinColor 4 "english" ≠ calculatePinColorClient 4 "english" := by
  refine ⟨by decide, by decide, by decide⟩

/-- C8 (amended). The backend and client classification functions agree on
every pair with congregationId between 1 and 3 (where the raw value never
exceeds 15); they diverge only above that, where the backend clamps and the
client wraps. -/
theorem calculatePinColor_agree (cid : Int) (language : String)
    (_h1 : 1 ≤ cid) (h3 : cid ≤ 3) :
    calculatePinColor cid language = calculatePinColorClient cid language := by
  obtain ⟨hb1, hb2⟩ := langBase_bounds language
  unfold calculatePinColor calculatePinColorClient
  by_cases hc : cid = 1
  · rw [if_pos hc, if_pos hc]
  · rw [if_neg hc, if_neg hc]
    have hle : (cid - 1) * 5 + langBase language ≤ 15 := by nlinarith
    rw [if_neg (by omega : ¬ (cid - 1) * 5 + langBase language > 15)]
    exact min_eq_left hle

/-- C8 witness: backend and client agree at congregationId 2, language "tamil"
(both give 7). -/
theorem calculatePinColor_agree_witness :
    ((1 : Int) ≤ 2 ∧ (2 : Int) ≤ 3) ∧
    calculatePinColor 2 "tamil" = calculatePinColorClient 2 "tamil" :=
  ⟨⟨by decide, by decide⟩, calculatePinColor_agree 2 "tamil" (by decide) (by decide)⟩

/-! ## InfoCodec

Door labels travel in a single `info` string: writers join the label list
with ", " (BuildingForm `handleSave`, `info: formData.addressInfo.join(', ')`),
and the compact reader splits on ',', trims each entry and drops empty entries
(building edit page `loadBuildingData` line 168:
`data.info.split(',').map(item => item.trim()).filter(item => item !== '')`).
Strings are embedded through their character lists. -/

/-- JavaScript `s.split(c)` for a one-character separator, over the character
list of the string: the empty string yields one empty chunk, and every
occurrence of `c` starts a new chunk. -/
def splitChar (c : Char) : List Char → List (List Char)
  | [] => [[]]
  | x :: xs =>
    match splitChar c xs with
    | [] => [[x]]
    | h :: t => if x = c then [] :: h :: t else (x :: h) :: t

/-- JavaScript `s.trim()` over a character list: drop leading and trailing
whitespace. -/
def trimChars (s : List Char) : List Char :=
  ((s.dropWhile Char.isWhitespace).reverse.dropWhile Char.isWhitespace).reverse

/-- InfoCodec encode: `labels.join(', ')` over character lists. -/
def encodeInfo : List (List Char) → List Char
  | [] => []
  | [a] => a
  | a :: b :: rest => a ++ ',' :: ' ' :: encodeInfo (b :: rest)

/-- InfoCodec compact decode: split on ',', trim each entry, drop empties
(`loadBuildingData` line 168). -/
def decodeCompact (s : List Char) : List (List Char) :=
  ((splitChar ',' s).map trimChars).filter (fun l => decide (l ≠ []))

/-- String-level InfoCodec encode. -/
def encodeS (labels : List String) : String :=
  String.mk (encodeInfo (labels.map String.data))

/-- String-level InfoCodec compact decode. -/
def decodeCompactS (s : String) : List String :=
  (decodeCompact s.data).map String.mk

theorem splitChar_cons (c x : Char) (xs : List Char) :
    splitChar c (x :: xs) =
      match splitChar c xs with
      | [] => [[x]]
      | h :: t => if x = c then [] :: h :: t else (x :: h) :: t := rfl

theorem splitChar_ne_nil (c : Char) (s : List Char) : splitChar c s ≠ [] := by
  cases s with
  | nil => simp [splitChar]
  | cons x xs =>
    rw [splitChar_cons]
    cases hs : splitChar c xs with
    | nil => simp
    | cons h t => by_cases hx : x = c <;> simp [hx]

theorem splitChar_not_mem (c : Char) (a : List Char) (h : c ∉ a) :
    splitChar c a = [a] := by
  induction a with
  | nil => rfl
  | cons x xs ih =>
    have hx : x ≠ c := fun e => h (e ▸ List.mem_cons_self x xs)
    have hxs : c ∉ xs := fun hm => h (List.mem_cons_of_mem x hm)
    rw [splitChar_cons, ih hxs]
    simp [hx]

theorem splitChar_append (c : Char) (a s : List Char) (h : c ∉ a) :
    splitChar c (a ++ c :: s) = a :: splitChar c s := by
  induction a with
  | nil =>
    simp only [List.nil_append]
    rw [splitChar_cons]
    cases hs : splitChar c s with
    | nil => exact absurd hs (splitChar_ne_nil c s)
    | cons hh tt => simp
  | cons x xs ih =>
    have hx : x ≠ c := fun e => h (e ▸ List.mem_cons_self x xs)
    have hxs : c ∉ xs := fun hm => h (List.mem_cons_of_mem x hm)
    simp only [List.cons_append]
    rw [splitChar_cons, ih hxs]
    simp [hx]

theorem trimChars_cons_space (l : List Char) : trimChars (' ' :: l) = trimChars l := by
  unfold trimChars
  rw [List.dropWhile_cons]
  simp

theorem map_trim_split_space (s : List Char) :
    (splitChar ',' (' ' :: s)).map trimChars = (splitChar ',' s).map trimChars := by
  rw [splitChar_cons]
  cases hs : splitChar ',' s with
  | nil => exact absurd hs (splitChar_ne_nil ',' s)
  | cons h t =>
    have hsp : (' ' : Char) ≠ ',' := by decide
    simp [hsp, trimChars_cons_space]

theorem splitTrim_encode (x : List (List Char)) (hx : x ≠ [])
    (h : ∀ l ∈ x, l ≠ [] ∧ ',' ∉ l ∧ trimChars l = l) :
    (splitChar ',' (encodeInfo x)).map trimChars = x := by
  induction x with
  | nil => exact absurd rfl hx
  | cons a rest ih =>
    cases rest with
    | nil =>
      obtain ⟨-, hnc, htr⟩ := h a (List.mem_cons_self a [])
      simp [encodeInfo, splitChar_not_mem ',' a hnc, htr]
    | cons b rs =>
      obtain ⟨-, hnc, htr⟩ := h a (List.mem_cons_self a (b :: rs))
      have hrest : ∀ l ∈ b :: rs, l ≠ [] ∧ ',' ∉ l ∧ trimChars l = l :=
        fun l hl => h l (List.mem_cons_of_mem a hl)
      have henc : encodeInfo (a :: b :: rs) = a ++ ',' :: ' ' :: encodeInfo (b :: rs) := rfl
      rw [henc, splitChar_append ',' a _ hnc, List.map_cons, htr,
        map_trim_split_space, ih (by simp) hrest]

theorem decodeCompact_encode (x : List (List Char))
    (h : ∀ l ∈ x, l ≠ [] ∧ ',' ∉ l ∧ trimChars l = l) :
    decodeCompact (encodeInfo x) = x := by
  cases x with
  | nil => rfl
  | cons a rest =>
    unfold decodeCompact
    rw [splitTrim_encode (a :: rest) (by simp) h]
    rw [List.filter_eq_self]
    intro l hl
    exact decide_eq_true (h l hl).1

/-- C7 counterexample. The compact decode drops empty entries and trims, so
the round trip fails for label lists containing an empty label or a label
with surrounding whitespace, both of which contain no embedded comma:
decode(encode([""])) = [] and decode(encode([" A"])) = ["A"]. -/
theorem decodeCompact_encode_cex :
    decodeCompact (encodeInfo [[]]) = [] ∧ ([] : List (List Char)) ≠ [[]] ∧
    decodeCompact (encodeInfo [[' ', 'A']]) = [['A']] ∧
    [['A']] ≠ [[' ', 'A']] := by
  refine ⟨by decide, by decide, by decide, by decide⟩

/-- C7 (amended). InfoCodec reference values hold, and the round trip
decode(encode(x), compact) = x holds for every label list whose labels are
nonempty, contain no comma, and carry no leading or trailing whitespace. -/
theorem infoCodec_round_trip (x : List (List Char))
    (h : ∀ l ∈ x, l ≠ [] ∧ ',' ∉ l ∧ trimChars l = l) :
    encodeS ["A", "B", "C"] = "A, B, C" ∧
    decodeCompactS "A, B, C" = ["A", "B", "C"] ∧
    decodeCompact (encodeInfo x) = x :=
  ⟨by decide, by decide, decodeCompact_encode x h⟩

/-- C7 witness: the round trip instantiated at the two-label list ["A", "B"]. -/
theorem infoCodec_round_trip_witness :
    (∀ l ∈ [['A'], ['B']], l ≠ [] ∧ ',' ∉ l ∧ trimChars l = l) ∧
    (encodeS ["A", "B", "C"] = "A, B, C" ∧
     decodeCompactS "A, B, C" = ["A", "B", "C"] ∧
     decodeCompact (encodeInfo [['A'], ['B']]) = [['A'], ['B']]) :=
  ⟨by decide, infoCodec_round_trip [['A'], ['B']] (by decide)⟩

/-! ## AggregateStore

Embedding of the aggregate API route (part_015 of the source): `POST` creates
a Building row and then its Door rows, `PUT` updates the Building, deletes its
Door set and recreates it, and the single-building `GET` derives the view
(door count, joined labels). The database is modelled as an explicit `Store`
value threaded through each operation. The source wraps none of these
statement sequences in a transaction (`prisma.$transaction` never appears):
each `await prisma....` call commits on its own, which the model reflects by
exposing the store value after every statement. -/

/-- Door table row (columns used by the embedded routes). `information_name`
is nullable in the schema (`string | undefined` in the route's `DoorData`). -/
structure DoorRow where
  language : String
  information_name : Option String
  building_id : Nat
  id_cong_app : Int
  id_cong_lang : Int
deriving DecidableEq

/-- Building table row (columns used by the embedded routes); the timestamp
is an abstract tick. -/
structure BuildingRow where
  idBuilding : Nat
  lat : ℚ
  long : ℚ
  address : String
  territory_id : Int
  last_modified : Nat
deriving DecidableEq

/-- The relational store: Building rows and Door rows. -/
structure Store where
  buildings : List BuildingRow
  doors : List DoorRow
deriving DecidableEq

/-- Parsed request body of the aggregate POST/PUT (part_015 lines 417-426 and
529-538). A `none` coordinate models a missing or non-numeric JSON field,
which is exactly what the `typeof lat !== 'number'` guard rejects; all other
fields take their destructuring defaults when absent. -/
structure RequestData where
  lat : Option ℚ
  long : Option ℚ
  language : Option String
  numberOfDoors : Option Int
  info : Option String
  address : Option String
  territory_id : Option Int
  congregationId : Option Int
deriving DecidableEq

/-- The comma-split trimmed label array of the create/update path:
`info.split(',').map((i) => i.trim())` (part_015 lines 450 and 583). -/
def doorInfoArray (inf : String) : List String :=
  ((splitChar ',' inf.data).map trimChars).map String.mk

/-- The fallback label the route writes for an index with no (or an empty)
supplied label: the template "Door (i+1) info" (part_015 lines 454 and 587). -/
def doorPlaceholder (i : Nat) : String :=
  "Door " ++ toString (i + 1) ++ " info"

/-- JavaScript `a || b` for a string-or-undefined `a` and a truthy fallback
`b`: an absent or empty string falls through to `b`. -/
def jsStrOr (a : Option String) (b : String) : String :=
  match a with
  | some s => if s = "" then b else s
  | none => b

/-- Door rows built by POST and PUT (part_015 lines 450-459 and 583-592):
`Array.from({length: Math.max(numberOfDoors, doorInfoArray.length)})` mapped
to rows pairing labels by index, with the placeholder for missing entries. -/
def mkDoors (buildingId : Nat) (language : String) (congregationId : Int)
    (numberOfDoors : Int) (inf : String) : List DoorRow :=
  (List.range (max numberOfDoors ((doorInfoArray inf).length : Int)).toNat).map
    (fun i =>
      { language := language
        information_name := some (jsStrOr ((doorInfoArray inf).get? i) (doorPlaceholder i))
        building_id := buildingId
        id_cong_app := congregationId
        id_cong_lang := 1 })

/-- Response status paired with the store left behind by the handler. -/
structure ApiResult where
  status : Nat
  store : Store
deriving DecidableEq

/-- POST handler of the aggregate route (part_015 lines 403-497). Validation
is only `typeof lat !== 'number' || typeof long !== 'number'` (status 400);
then `prisma.building.create` commits the Building, then
`prisma.door.createMany` commits the Door rows. `doorInsertOk = false` models
the door insertion statement throwing: the handler answers 500, and because
the two statements are not wrapped in a transaction the already-committed
Building stays in the store. -/
def runPOST (s : Store) (freshId : Nat) (now : Nat) (req : RequestData)
    (doorInsertOk : Bool) : ApiResult :=
  match req.lat, req.long with
  | some la, some lo =>
    let building : BuildingRow :=
      { idBuilding := freshId, lat := la, long := lo,
        address := req.address.getD "", territory_id := req.territory_id.getD 1,
        last_modified := now }
    let s1 : Store := { s with buildings := s.buildings ++ [building] }
    let newDoors :=
      mkDoors freshId (req.language.getD "Tamil") (req.congregationId.getD 1)
        (req.numberOfDoors.getD 1) (req.info.getD "")
    if doorInsertOk then
      { status := 201, store := { s1 with doors := s1.doors ++ newDoors } }
    else
      { status := 500, store := s1 }
  | _, _ => { status := 400, store := s }

/-- Building update statement of PUT (part_015 lines 566-575): replaces lat,
long, address, territory_id and refreshes last_modified. -/
def updateBuildingRow (la lo : ℚ) (address : String) (tid : Int) (now : Nat)
    (b : BuildingRow) : BuildingRow :=
  { b with
      lat := la
      long := lo
      address := address
      territory_id := tid
      last_modified := now }

/-- Store after the `prisma.building.update` statement of PUT. -/
def putUpdatedStore (s : Store) (id : Nat) (la lo : ℚ) (address : String)
    (tid : Int) (now : Nat) : Store :=
  { s with buildings := s.buildings.map (fun b =>
      if b.idBuilding = id then updateBuildingRow la lo address tid now b else b) }

/-- Store after the `prisma.door.deleteMany({where: {building_id}})`
statement (part_015 lines 578-580). -/
def deleteDoorsStore (s : Store) (id : Nat) : Store :=
  { s with doors := s.doors.filter (fun d => decide (d.building_id ≠ id)) }

/-- Store after a `prisma.door.createMany` statement. -/
def insertDoorsStore (s : Store) (ds : List DoorRow) : Store :=
  { s with doors := s.doors ++ ds }

/-- Existence check `prisma.building.findUnique` used by PUT before writing. -/
def hasBuilding (s : Store) (id : Nat) : Bool :=
  s.buildings.any (fun b => decide (b.idBuilding = id))

/-- PUT handler of the aggregate route (part_015 lines 500-630): 400 on a
non-numeric coordinate, 404 when the Building does not exist, otherwise
update the Building, delete its entire Door set, and insert the fresh set
built by the same rules as POST. -/
def runPUT (s : Store) (buildingId : Nat) (now : Nat) (req : RequestData) : ApiResult :=
  match req.lat, req.long with
  | some la, some lo =>
    if hasBuilding s buildingId then
      { status := 200,
        store := insertDoorsStore
          (deleteDoorsStore
            (putUpdatedStore s buildingId la lo (req.address.getD "")
              (req.territory_id.getD 1) now)
            buildingId)
          (mkDoors buildingId (req.language.getD "Tamil") (req.congregationId.getD 1)
            (req.numberOfDoors.getD 1) (req.info.getD "")) }
    else { status := 404, store := s }
  | _, _ => { status := 400, store := s }

/-- Stores observable while PUT runs: the source awaits
`prisma.building.update`, `prisma.door.deleteMany` and
`prisma.door.createMany` as three separate statements with no surrounding
`$transaction` (part_015 lines 566-594), so a concurrent reader can see the
store after each one. -/
def putObservableStores (s : Store) (buildingId : Nat) (now : Nat)
    (req : RequestData) : List Store :=
  match req.lat, req.long with
  | some la, some lo =>
    if hasBuilding s buildingId then
      [s,
       putUpdatedStore s buildingId la lo (req.address.getD "")
         (req.territory_id.getD 1) now,
       deleteDoorsStore
         (putUpdatedStore s buildingId la lo (req.address.getD "")
           (req.territory_id.getD 1) now)
         buildingId,
       (runPUT s buildingId now req).store]
    else [s]
  | _, _ => [s]

/-- Doors belonging to a building, in insertion order. -/
def doorsOf (s : Store) (id : Nat) : List DoorRow :=
  s.doors.filter (fun d => decide (d.building_id = id))

/-- Aggregate view returned by the single-building GET (part_015 lines
90-98). -/
structure BuildingView where
  lat : ℚ
  long : ℚ
  address : String
  numberOfDoors : Nat
  language : String
  info : Option String
deriving DecidableEq

/-- Joined label field of the single-building GET:
`building.Door.map(d => d.information_name).filter(Boolean).join(', ') || undefined`. -/
def joinedInfo (ds : List DoorRow) : Option String :=
  let j := encodeS ((ds.map (fun d => d.information_name)).filterMap (fun o =>
    match o with
    | some t => if t = "" then none else some t
    | none => none))
  if j = "" then none else some j

/-- Single-building GET handler (part_015 lines 51-106): `none` is the 404
"Building not found" answer; otherwise the view is derived from the Building
row and its Door rows. -/
def getAggregate (s : Store) (id : Nat) : Option BuildingView :=
  match s.buildings.find? (fun b => decide (b.idBuilding = id)) with
  | none => none
  | some b =>
    some { lat := b.lat, long := b.long, address := b.address,
           numberOfDoors := (doorsOf s id).length,
           language := jsStrOr ((doorsOf s id).head?.map (fun d => d.language)) "English",
           info := joinedInfo (doorsOf s id) }

/-- Empty store. -/
def emptyStore : Store := { buildings := [], doors := [] }

/-- Create request with a numeric but out-of-range latitude (999). -/
def badCoordReq : RequestData :=
  { lat := some 999, long := some 0, language := none, numberOfDoors := none,
    info := none, address := none, territory_id := none, congregationId := none }

/-- Create request for a two-door building with both labels supplied. -/
def createReq : RequestData :=
  { lat := some (110168/10000), long := some (769558/10000),
    language := some "Tamil", numberOfDoors := some 2, info := some "1/F, 2/F",
    address := some "addr", territory_id := none, congregationId := none }

/-- Create request declaring two doors but supplying only the label "A". -/
def twoDoorReq : RequestData :=
  { lat := some 11, long := some 77, language := some "Tamil",
    numberOfDoors := some 2, info := some "A", address := some "x",
    territory_id := none, congregationId := none }

/-- Update request declaring five doors but supplying only the label "A". -/
def fiveDoorReq : RequestData :=
  { lat := some 11, long := some 77, language := some "Tamil",
    numberOfDoors := some 5, info := some "A", address := some "x",
    territory_id := none, congregationId := none }

/-- Update request replacing the door set with the single label "2/F". -/
def updReq : RequestData :=
  { lat := some 11, long := some 77, language := some "Tamil",
    numberOfDoors := some 1, info := some "2/F", address := some "a",
    territory_id := none, congregationId := none }

/-- Building row used by the concrete store below. -/
def buildingOne : BuildingRow :=
  { idBuilding := 1
    lat := 11
    long := 77
    address := "a"
    territory_id := 1
    last_modified := 0 }

/-- Door row used by the concrete store below. -/
def doorOne : DoorRow :=
  { language := "Tamil"
    information_name := some "1/F"
    building_id := 1
    id_cong_app := 1
    id_cong_lang := 1 }

/-- Store holding building 1 with one door labelled "1/F". -/
def oneDoorStore : Store :=
  { buildings := [buildingOne], doors := [doorOne] }

/-- C2 counterexample. The aggregate POST validates only
`typeof lat !== 'number'`, not the range: latitude 999 (outside [-90, 90])
passes validation, answers 201, and the Building row is committed. -/
theorem post_accepts_out_of_range :
    (999 : ℚ) > 90 ∧
    (runPOST emptyStore 1 0 badCoordReq true).status = 201 ∧
    ((runPOST emptyStore 1 0 badCoordReq true).store.buildings.map
      (fun b => (b.idBuilding, b.lat))) = [(1, 999)] := by
  refine ⟨by decide, by decide, by decide⟩

/-- C3. The POST handler commits the Building with `prisma.building.create`
and only afterwards inserts the Door rows with `prisma.door.createMany`,
with no transaction around the two statements: when the door insertion fails
the handler answers 500 and the store keeps building 1 with an empty door
set. -/
theorem post_failure_orphans_building :
    (runPOST emptyStore 1 0 createReq false).status = 500 ∧
    hasBuilding (runPOST emptyStore 1 0 createReq false).store 1 = true ∧
    doorsOf (runPOST emptyStore 1 0 createReq false).store 1 = [] := by
  refine ⟨by decide, by decide, by decide⟩

/-- C4 counterexample. With numberOfDoors = 2 and the single supplied label
"A", the second inserted Door row receives the placeholder label
"Door 2 info", not an empty label. -/
theorem post_placeholder_label :
    ((runPOST emptyStore 1 0 twoDoorReq true).store.doors.map
      (fun d => d.information_name)) = [some "A", some "Door 2 info"] ∧
    (some "Door 2 info" : Option String) ≠ some "" ∧
    (some "Door 2 info" : Option String) ≠ none := by
  refine ⟨by decide, by decide, by decide⟩

/-- C5 counterexample. Updating building 1 (one prior door) with
doorLabels = ["A"] but numberOfDoors = 5 leaves a five-door set padded with
placeholder labels, so the aggregate read does not return exactly ["A"]. -/
theorem update_extra_doors_cex :
    ((getAggregate (runPUT oneDoorStore 1 1 fiveDoorReq).store 1).map
      (fun v => v.numberOfDoors)) = some 5 ∧
    (doorsOf (runPUT oneDoorStore 1 1 fiveDoorReq).store 1).map
      (fun d => d.information_name) =
      [some "A", some "Door 2 info", some "Door 3 info", some "Door 4 info",
       some "Door 5 info"] ∧
    (5 : Nat) ≠ 1 := by
  refine ⟨by decide, by decide, by decide⟩

/-- C6. Between the door `deleteMany` and the door `createMany` of PUT
(separate awaited statements, no transaction) there is an observable store in
which building 1 is present with an empty door set. -/
theorem put_observable_zero_doors :
    ∃ s ∈ putObservableStores oneDoorStore 1 1 updReq,
      hasBuilding s 1 = true ∧ doorsOf s 1 = [] := by
  decide

/-- C2 (amended). The aggregate POST/PUT reject a write with the coordinate
error (status 400, store unchanged) exactly when lat or long is missing or
non-numeric; any numeric pair — including out-of-range values — passes the
`typeof` check and the Building row is committed. Range validation exists
only client-side in the form (`isFormValid`, BuildingForm lines 236-250). -/
theorem coordinate_validation (s : Store) (freshId now : Nat) (req : RequestData)
    (ok : Bool) (la lo : ℚ) (hla : req.lat = some la) (hlo : req.long = some lo) :
    (runPOST s freshId now req ok).status ≠ 400 ∧
    (∃ b ∈ (runPOST s freshId now req ok).store.buildings,
      b.idBuilding = freshId ∧ b.lat = la ∧ b.long = lo) ∧
    (∀ req2 : RequestData, req2.lat = none ∨ req2.long = none →
      runPOST s freshId now req2 ok = { status := 400, store := s } ∧
      runPUT s freshId now req2 = { status := 400, store := s }) := by
  have hbld : (runPOST s freshId now req ok).store.buildings =
      s.buildings ++ [{ idBuilding := freshId
                        lat := la
                        long := lo
                        address := req.address.getD ""
                        territory_id := req.territory_id.getD 1
                        last_modified := now }] := by
    cases ok <;> simp [runPOST, hla, hlo]
  refine ⟨?_, ?_, ?_⟩
  · cases ok <;> simp [runPOST, hla, hlo]
  · rw [hbld]
    exact ⟨_, List.mem_append_right _ (List.mem_singleton_self _), rfl, rfl, rfl⟩
  · intro req2 h
    rcases h with h | h
    · cases hl2 : req2.long <;> simp [runPOST, runPUT, h, hl2]
    · cases hl2 : req2.lat <;> simp [runPOST, runPUT, h, hl2]

/-- C2 witness: the validation statement instantiated at the out-of-range
request (latitude 999) against the empty store. -/
theorem coordinate_validation_witness :
    (badCoordReq.lat = some 999 ∧ badCoordReq.long = some 0) ∧
    ((runPOST emptyStore 1 0 badCoordReq true).status ≠ 400 ∧
     (∃ b ∈ (runPOST emptyStore 1 0 badCoordReq true).store.buildings,
       b.idBuilding = 1 ∧ b.lat = 999 ∧ b.long = 0) ∧
     (∀ req2 : RequestData, req2.lat = none ∨ req2.long = none →
       runPOST emptyStore 1 0 req2 true = { status := 400, store := emptyStore } ∧
       runPUT emptyStore 1 0 req2 = { status := 400, store := emptyStore })) :=
  ⟨⟨rfl, rfl⟩, coordinate_validation emptyStore 1 0 badCoordReq true 999 0 rfl rfl⟩

theorem mkDoors_length (bid : Nat) (language : String) (cid n : Int) (inf : String) :
    (mkDoors bid language cid n inf).length =
      (max n ((doorInfoArray inf).length : Int)).toNat := by
  simp [mkDoors]

theorem mkDoors_get (bid : Nat) (language : String) (cid n : Int) (inf : String)
    (i : Nat) (hj : i < (mkDoors bid language cid n inf).length) :
    (mkDoors bid language cid n inf).get ⟨i, hj⟩ =
      { language := language
        information_name := some (jsStrOr ((doorInfoArray inf).get? i) (doorPlaceholder i))
        building_id := bid
        id_cong_app := cid
        id_cong_lang := 1 } := by
  rw [List.get_eq_getElem]
  simp [mkDoors]

theorem doorInfoArray_length_pos (inf : String) : 1 ≤ (doorInfoArray inf).length := by
  have h := splitChar_ne_nil ',' inf.data
  simp only [doorInfoArray, List.length_map]
  exact List.length_pos.mpr h

/-- C4 (amended). POST inserts exactly
max(numberOfDoors, length of the comma-split of info) Door rows (the split of
an empty info string has one empty entry), pairing supplied nonempty labels
by index; an index beyond the supplied entries — or whose entry is empty —
receives the placeholder label "Door (i+1) info" rather than an empty
label. -/
theorem post_door_count_and_labels (s : Store) (freshId now : Nat)
    (req : RequestData) (la lo : ℚ) (hla : req.lat = some la) (hlo : req.long = some lo)
    (bid : Nat) (language : String) (cid n : Int) (inf : String) :
    ((runPOST s freshId now req true).store.doors =
      s.doors ++ mkDoors freshId (req.language.getD "Tamil") (req.congregationId.getD 1)
        (req.numberOfDoors.getD 1) (req.info.getD "")) ∧
    (mkDoors bid language cid n inf).length =
      (max n ((doorInfoArray inf).length : Int)).toNat ∧
    1 ≤ (doorInfoArray inf).length ∧
    (∀ i (hi : i < (doorInfoArray inf).length)
        (hj : i < (mkDoors bid language cid n inf).length),
      (doorInfoArray inf).get ⟨i, hi⟩ ≠ "" →
      ((mkDoors bid language cid n inf).get ⟨i, hj⟩).information_name =
        some ((doorInfoArray inf).get ⟨i, hi⟩)) ∧
    (∀ i (hj : i < (mkDoors bid language cid n inf).length),
      (doorInfoArray inf).length ≤ i →
      ((mkDoors bid language cid n inf).get ⟨i, hj⟩).information_name =
        some (doorPlaceholder i)) ∧
    (∀ d ∈ mkDoors bid language cid n inf, d.building_id = bid) := by
  refine ⟨?_, mkDoors_length bid language cid n inf, doorInfoArray_length_pos inf,
    ?_, ?_, ?_⟩
  · simp [runPOST, hla, hlo]
  · intro i hi hj hne
    rw [mkDoors_get bid language cid n inf i hj, List.get?_eq_get hi]
    simp only [jsStrOr]
    rw [if_neg hne]
  · intro i hj hle
    rw [mkDoors_get bid language cid n inf i hj]
    rw [List.get?_eq_none.mpr hle]
    simp [jsStrOr]
  · intro d hd
    simp only [mkDoors, List.mem_map] at hd
    obtain ⟨i, -, rfl⟩ := hd
    rfl

/-- C4 witness: the door-construction statement instantiated at the request
declaring two doors with the single label "A". -/
theorem post_door_count_and_labels_witness :
    (twoDoorReq.lat = some 11 ∧ twoDoorReq.long = some 77) ∧
    (((runPOST emptyStore 1 0 twoDoorReq true).store.doors =
      emptyStore.doors ++ mkDoors 1 (twoDoorReq.language.getD "Tamil")
        (twoDoorReq.congregationId.getD 1) (twoDoorReq.numberOfDoors.getD 1)
        (twoDoorReq.info.getD "")) ∧
    (mkDoors 1 "Tamil" 1 2 "A").length =
      (max 2 ((doorInfoArray "A").length : Int)).toNat ∧
    1 ≤ (doorInfoArray "A").length ∧
    (∀ i (hi : i < (doorInfoArray "A").length)
        (hj : i < (mkDoors 1 "Tamil" 1 2 "A").length),
      (doorInfoArray "A").get ⟨i, hi⟩ ≠ "" →
      ((mkDoors 1 "Tamil" 1 2 "A").get ⟨i, hj⟩).information_name =
        some ((doorInfoArray "A").get ⟨i, hi⟩)) ∧
    (∀ i (hj : i < (mkDoors 1 "Tamil" 1 2 "A").length),
      (doorInfoArray "A").length ≤ i →
      ((mkDoors 1 "Tamil" 1 2 "A").get ⟨i, hj⟩).information_name =
        some (doorPlaceholder i)) ∧
    (∀ d ∈ mkDoors 1 "Tamil" 1 2 "A", d.building_id = 1)) :=
  ⟨⟨rfl, rfl⟩,
   post_door_count_and_labels emptyStore 1 0 twoDoorReq 11 77 rfl rfl 1 "Tamil" 1 2 "A"⟩

theorem mk_data_eq (s : String) : String.mk s.data = s := by
  cases s
  rfl

theorem doorInfoArray_encodeS (L : List String) (hL : L ≠ [])
    (hlab : ∀ l ∈ L, l.data ≠ [] ∧ ',' ∉ l.data ∧ trimChars l.data = l.data) :
    doorInfoArray (encodeS L) = L := by
  have hx : L.map String.data ≠ [] := by
    intro h
    exact hL (List.map_eq_nil_iff.mp h)
  have h : ∀ l ∈ L.map String.data, l ≠ [] ∧ ',' ∉ l ∧ trimChars l = l := by
    intro l hl
    obtain ⟨t, ht, rfl⟩ := List.mem_map.mp hl
    exact hlab t ht
  show ((splitChar ',' (encodeS L).data).map trimChars).map String.mk = L
  have hdata : (encodeS L).data = encodeInfo (L.map String.data) := rfl
  rw [hdata, splitTrim_encode (L.map String.data) hx h, List.map_map]
  have hcomp : (String.mk ∘ String.data) = id := by
    funext t
    exact mk_data_eq t
  rw [hcomp, List.map_id]

theorem range_map_labels (g : Nat → String) (L : List String)
    (h : ∀ l ∈ L, l ≠ "") :
    (List.range L.length).map (fun i => some (jsStrOr (L.get? i) (g i))) =
      L.map some := by
  induction L generalizing g with
  | nil => rfl
  | cons a as ih =>
    have ha : a ≠ "" := h a (List.mem_cons_self a as)
    have has : ∀ l ∈ as, l ≠ "" := fun l hl => h l (List.mem_cons_of_mem a hl)
    simp only [List.length_cons, List.range_succ_eq_map, List.map_cons, List.map_map]
    congr 1
    · simp [jsStrOr, ha]
    · have hfun : ((fun i => some (jsStrOr ((a :: as).get? i) (g i))) ∘ Nat.succ) =
          (fun i => some (jsStrOr (as.get? i) (g (i + 1)))) := by
        funext i
        rfl
      rw [hfun, ih (fun i => g (i + 1)) has]

theorem mkDoors_labels_encodeS (bid : Nat) (language : String) (cid n : Int)
    (L : List String) (hL : L ≠ []) (hn : n ≤ (L.length : Int))
    (hlab : ∀ l ∈ L, l.data ≠ [] ∧ ',' ∉ l.data ∧ trimChars l.data = l.data) :
    (mkDoors bid language cid n (encodeS L)).map (fun d => d.information_name) =
      L.map some := by
  have harr := doorInfoArray_encodeS L hL hlab
  have hne : ∀ l ∈ L, l ≠ "" := by
    intro l hl e
    have hd := (hlab l hl).1
    rw [e] at hd
    exact hd rfl
  unfold mkDoors
  rw [harr]
  have hcnt : (max n (L.length : Int)).toNat = L.length := by
    rw [max_eq_right hn]
    omega
  rw [hcnt, List.map_map]
  exact range_map_labels doorPlaceholder L hne

theorem doorsOf_runPUT (s : Store) (id now : Nat) (req : RequestData)
    (la lo : ℚ) (hla : req.lat = some la) (hlo : req.long = some lo)
    (hb : hasBuilding s id = true) :
    doorsOf (runPUT s id now req).store id =
      mkDoors id (req.language.getD "Tamil") (req.congregationId.getD 1)
        (req.numberOfDoors.getD 1) (req.info.getD "") := by
  simp only [runPUT, hla, hlo, hb, if_true]
  unfold doorsOf insertDoorsStore deleteDoorsStore putUpdatedStore
  simp only [List.filter_append]
  have h1 : (s.doors.filter (fun d => decide (d.building_id ≠ id))).filter
      (fun d => decide (d.building_id = id)) = [] := by
    apply List.filter_eq_nil_iff.mpr
    intro d hd
    have hmem := List.of_mem_filter hd
    simp at hmem ⊢
    exact hmem
  have h2 : (mkDoors id (req.language.getD "Tamil") (req.congregationId.getD 1)
      (req.numberOfDoors.getD 1) (req.info.getD "")).filter
      (fun d => decide (d.building_id = id)) =
      mkDoors id (req.language.getD "Tamil") (req.congregationId.getD 1)
        (req.numberOfDoors.getD 1) (req.info.getD "") := by
    apply List.filter_eq_self.mpr
    intro d hd
    simp only [mkDoors, List.mem_map] at hd
    obtain ⟨i, -, rfl⟩ := hd
    simp
  rw [h1, h2, List.nil_append]

theorem find?_update_of_any (l : List BuildingRow) (id : Nat)
    (f : BuildingRow → BuildingRow) (hf : ∀ b, (f b).idBuilding = b.idBuilding)
    (h : l.any (fun b => decide (b.idBuilding = id)) = true) :
    ∃ b', (l.map (fun b => if b.idBuilding = id then f b else b)).find?
      (fun b => decide (b.idBuilding = id)) = some b' := by
  induction l with
  | nil => simp at h
  | cons b bs ih =>
    by_cases hb : b.idBuilding = id
    · refine ⟨f b, ?_⟩
      simp only [List.map_cons, if_pos hb]
      exact List.find?_cons_of_pos _ (by simp [hf, hb])
    · have h' : bs.any (fun b => decide (b.idBuilding = id)) = true := by
        simp only [List.any_cons, Bool.or_eq_true, decide_eq_true_eq] at h
        rcases h with h | h
        · exact absurd h hb
        · exact h
      obtain ⟨b', hb'⟩ := ih h'
      refine ⟨b', ?_⟩
      simp only [List.map_cons, if_neg hb]
      rw [List.find?_cons_of_neg _ (by simp [hb]), hb']

theorem getAggregate_doorcount (s : Store) (id : Nat)
    (h : ∃ b', s.buildings.find? (fun b => decide (b.idBuilding = id)) = some b') :
    (getAggregate s id).map (fun v => v.numberOfDoors) =
      some (doorsOf s id).length := by
  obtain ⟨b', hb'⟩ := h
  simp [getAggregate, hb']

/-- C5 (amended). PUT removes every prior Door of the building (the door set
afterwards is exactly the freshly built one) and, when the request declares
at most |L| doors and every label of L is nonempty, comma-free and trimmed,
the resulting Door set carries exactly the labels L and the aggregate read
reports exactly |L| doors. Without those side conditions the set is padded
with placeholder labels up to numberOfDoors (see the counterexample). -/
theorem update_replaces_doors (s : Store) (id now : Nat) (req : RequestData)
    (la lo : ℚ) (L : List String)
    (hla : req.lat = some la) (hlo : req.long = some lo)
    (hb : hasBuilding s id = true)
    (hinfo : req.info = some (encodeS L))
    (hn : req.numberOfDoors.getD 1 ≤ (L.length : Int))
    (hL : L ≠ [])
    (hlab : ∀ l ∈ L, l.data ≠ [] ∧ ',' ∉ l.data ∧ trimChars l.data = l.data) :
    doorsOf (runPUT s id now req).store id =
      mkDoors id (req.language.getD "Tamil") (req.congregationId.getD 1)
        (req.numberOfDoors.getD 1) (req.info.getD "") ∧
    (doorsOf (runPUT s id now req).store id).map (fun d => d.information_name) =
      L.map some ∧
    (getAggregate (runPUT s id now req).store id).map (fun v => v.numberOfDoors) =
      some L.length := by
  have hdoors := doorsOf_runPUT s id now req la lo hla hlo hb
  have hi : req.info.getD "" = encodeS L := by
    rw [hinfo]
    rfl
  have hlabels : (doorsOf (runPUT s id now req).store id).map
      (fun d => d.information_name) = L.map some := by
    rw [hdoors, hi]
    exact mkDoors_labels_encodeS id (req.language.getD "Tamil")
      (req.congregationId.getD 1) (req.numberOfDoors.getD 1) L hL hn hlab
  refine ⟨hdoors, hlabels, ?_⟩
  have hfind : ∃ b', (runPUT s id now req).store.buildings.find?
      (fun b => decide (b.idBuilding = id)) = some b' := by
    have hbuild : (runPUT s id now req).store.buildings =
        s.buildings.map (fun b => if b.idBuilding = id then
          updateBuildingRow la lo (req.address.getD "")
            (req.territory_id.getD 1) now b else b) := by
      simp [runPUT, hla, hlo, hb, insertDoorsStore, deleteDoorsStore, putUpdatedStore]
    rw [hbuild]
    exact find?_update_of_any s.buildings id _ (fun b => rfl) hb
  rw [getAggregate_doorcount _ _ hfind]
  have hlen := congrArg List.length hlabels
  simp only [List.length_map] at hlen
  rw [hlen]

/-- Update request that replaces the door set of building 1 with the single
label "2F". -/
def replaceReq : RequestData :=
  { lat := some 12, long := some 78, language := some "Tamil",
    numberOfDoors := some 1, info := some (encodeS ["2F"]), address := some "b",
    territory_id := none, congregationId := none }

/-- C5 witness: the replacement statement instantiated at building 1 of the
one-door store with the label list ["2F"]. -/
theorem update_replaces_doors_witness :
    (replaceReq.lat = some 12 ∧ replaceReq.long = some 78 ∧
     hasBuilding oneDoorStore 1 = true ∧
     replaceReq.info = some (encodeS ["2F"]) ∧
     replaceReq.numberOfDoors.getD 1 ≤ ((["2F"] : List String).length : Int) ∧
     (["2F"] : List String) ≠ [] ∧
     (∀ l ∈ (["2F"] : List String),
       l.data ≠ [] ∧ ',' ∉ l.data ∧ trimChars l.data = l.data)) ∧
    (doorsOf (runPUT oneDoorStore 1 2 replaceReq).store 1 =
      mkDoors 1 (replaceReq.language.getD "Tamil") (replaceReq.congregationId.getD 1)
        (replaceReq.numberOfDoors.getD 1) (replaceReq.info.getD "") ∧
    (doorsOf (runPUT oneDoorStore 1 2 replaceReq).store 1).map
      (fun d => d.information_name) = (["2F"] : List String).map some ∧
    (getAggregate (runPUT oneDoorStore 1 2 replaceReq).store 1).map
      (fun v => v.numberOfDoors) = some (["2F"] : List String).length) :=
  ⟨⟨rfl, rfl, by decide, rfl, by decide, by decide, by decide⟩,
   update_replaces_doors oneDoorStore 1 2 replaceReq 12 78 ["2F"] rfl rfl
     (by decide) rfl (by decide) (by decide) (by decide)⟩

/-! ## ResilientClient coordinate normalization

Embedding of the coordinate handling in the building-edit page
(`loadBuildingData`, lines 141-166): field-name variants are resolved with
JavaScript `||` chains, a nested `coordinates` object is consulted when the
direct chain yields nothing, and an invalid or out-of-range result is
replaced by the default location (13.0827, 80.2707) with a console warning
("needs manual correction"). Field values are numbers-or-absent
(`Option ℚ`); `Number(undefined)` is `NaN`, which the range check rejects,
so an unresolved chain (`none`) takes the default branch. -/

/-- Nested `coordinates` sub-object of a fetched record. -/
structure RawCoords where
  lat : Option ℚ
  long : Option ℚ
  latitude : Option ℚ
  longitude : Option ℚ
  lng : Option ℚ
deriving DecidableEq

/-- Fetched building record with every coordinate field-name variant the
page declares (`BuildingData`, part_001 lines 7-38). -/
structure RawBuildingData where
  lat : Option ℚ
  latitude : Option ℚ
  Lat : Option ℚ
  Latitude : Option ℚ
  long : Option ℚ
  lng : Option ℚ
  longitude : Option ℚ
  Long : Option ℚ
  Lng : Option ℚ
  Longitude : Option ℚ
  coordinates : Option RawCoords
deriving DecidableEq

/-- JavaScript `a || b` for number-or-undefined operands: `a` wins exactly
when it is present and nonzero; otherwise the result is `b` — including when
`b` itself is absent or zero, since `||` returns its second operand
unchanged. -/
def jsOr (a b : Option ℚ) : Option ℚ :=
  match a with
  | some v => if v = 0 then b else some v
  | none => b

/-- Direct latitude chain: `data.lat || data.latitude || data.Lat ||
data.Latitude` (line 141). -/
def resolveLatRaw (d : RawBuildingData) : Option ℚ :=
  jsOr d.lat (jsOr d.latitude (jsOr d.Lat d.Latitude))

/-- Direct longitude chain: `data.long || data.lng || data.longitude ||
data.Long || data.Lng || data.Longitude` (line 142). -/
def resolveLongRaw (d : RawBuildingData) : Option ℚ :=
  jsOr d.long (jsOr d.lng (jsOr d.longitude (jsOr d.Long (jsOr d.Lng d.Longitude))))

/-- Latitude after the nested fallback (lines 145-147): when the direct chain
is unresolved and a `coordinates` object exists, try
`coordinates.lat || coordinates.latitude || coordinates.lng`. -/
def resolveLat (d : RawBuildingData) : Option ℚ :=
  match resolveLatRaw d, d.coordinates with
  | none, some c => jsOr c.lat (jsOr c.latitude c.lng)
  | l, _ => l

/-- Longitude after the nested fallback (lines 148-150):
`coordinates.long || coordinates.lng || coordinates.longitude`. -/
def resolveLong (d : RawBuildingData) : Option ℚ :=
  match resolveLongRaw d, d.coordinates with
  | none, some c => jsOr c.long (jsOr c.lng c.longitude)
  | l, _ => l

/-- Default latitude substituted for invalid coordinates (Chennai). -/
def defaultLat : ℚ := 130827/10000

/-- Default longitude substituted for invalid coordinates (Chennai). -/
def defaultLong : ℚ := 802707/10000

/-- Coordinate normalization result (lines 152-166): the resolved pair when
it is numeric and in range, otherwise the default location; the Boolean
records whether the default branch ("needs manual correction" warning) was
taken. -/
def normalizeCoordinates (d : RawBuildingData) : ℚ × ℚ × Bool :=
  match resolveLat d, resolveLong d with
  | some la, some lo =>
    if la < -90 ∨ 90 < la ∨ lo < -180 ∨ 180 < lo then
      (defaultLat, defaultLong, true)
    else (la, lo, false)
  | _, _ => (defaultLat, defaultLong, true)

/-- Latitude field values the resolution can ever return: the four direct
variants and, behind them, the three nested candidates. -/
def latCandidates (d : RawBuildingData) : List (Option ℚ) :=
  [d.lat, d.latitude, d.Lat, d.Latitude] ++
    (match d.coordinates with
     | some c => [c.lat, c.latitude, c.lng]
     | none => [])

/-- Candidate that cannot produce a valid latitude: absent, or out of
[-90, 90]. -/
def invalidLatCandidate (o : Option ℚ) : Bool :=
  match o with
  | none => true
  | some v => decide (v < -90 ∨ 90 < v)

/-- Record with every coordinate field absent. -/
def emptyRaw : RawBuildingData :=
  { lat := none, latitude := none, Lat := none, Latitude := none,
    long := none, lng := none, longitude := none, Long := none, Lng := none,
    Longitude := none, coordinates := none }

/-- The record of the spec's reference example: only `Latitude` and `Long`
are present. -/
def exampleRawRec : RawBuildingData :=
  { emptyRaw with Latitude := some (25/2), Long := some (771/10) }

theorem jsOr_cases (a b : Option ℚ) : jsOr a b = a ∨ jsOr a b = b := by
  unfold jsOr
  cases a with
  | none => exact Or.inr rfl
  | some v => by_cases h : v = 0 <;> simp [h]

theorem resolveLatRaw_mem (d : RawBuildingData) :
    resolveLatRaw d ∈ [d.lat, d.latitude, d.Lat, d.Latitude] := by
  unfold resolveLatRaw
  rcases jsOr_cases d.lat (jsOr d.latitude (jsOr d.Lat d.Latitude)) with h | h <;>
    rw [h]
  · simp
  · rcases jsOr_cases d.latitude (jsOr d.Lat d.Latitude) with h2 | h2 <;> rw [h2]
    · simp
    · rcases jsOr_cases d.Lat d.Latitude with h3 | h3 <;> rw [h3] <;> simp

theorem resolveLat_eq_some_mem (d : RawBuildingData) (v : ℚ)
    (h : resolveLat d = some v) : some v ∈ latCandidates d := by
  unfold resolveLat at h
  cases hraw : resolveLatRaw d with
  | some w =>
    rw [hraw] at h
    have hmem := resolveLatRaw_mem d
    rw [hraw] at hmem
    cases d.coordinates <;> simp only [] at h <;>
      · rw [h] at hmem
        exact List.mem_append_left _ hmem
  | none =>
    rw [hraw] at h
    cases hc : d.coordinates with
    | none =>
      rw [hc] at h
      exact absurd h (by simp)
    | some c =>
      rw [hc] at h
      simp only [] at h
      have hmem : some v ∈ [c.lat, c.latitude, c.lng] := by
        rcases jsOr_cases c.lat (jsOr c.latitude c.lng) with h1 | h1
        · rw [h1] at h
          simp [← h]
        · rw [h1] at h
          rcases jsOr_cases c.latitude c.lng with h2 | h2 <;> rw [h2] at h <;>
            simp [← h]
      unfold latCandidates
      rw [hc]
      exact List.mem_append_right _ hmem

/-- Longitude field values the resolution can ever return: the six direct
variants and, behind them, the three nested candidates. -/
def longCandidates (d : RawBuildingData) : List (Option ℚ) :=
  [d.long, d.lng, d.longitude, d.Long, d.Lng, d.Longitude] ++
    (match d.coordinates with
     | some c => [c.long, c.lng, c.longitude]
     | none => [])

/-- Candidate that cannot produce a valid longitude: absent, or out of
[-180, 180]. -/
def invalidLongCandidate (o : Option ℚ) : Bool :=
  match o with
  | none => true
  | some v => decide (v < -180 ∨ 180 < v)

theorem resolveLongRaw_mem (d : RawBuildingData) :
    resolveLongRaw d ∈ [d.long, d.lng, d.longitude, d.Long, d.Lng, d.Longitude] := by
  unfold resolveLongRaw
  rcases jsOr_cases d.long
      (jsOr d.lng (jsOr d.longitude (jsOr d.Long (jsOr d.Lng d.Longitude)))) with
    h | h <;> rw [h]
  · simp
  · rcases jsOr_cases d.lng (jsOr d.longitude (jsOr d.Long (jsOr d.Lng d.Longitude)))
      with h2 | h2 <;> rw [h2]
    · simp
    · rcases jsOr_cases d.longitude (jsOr d.Long (jsOr d.Lng d.Longitude)) with
        h3 | h3 <;> rw [h3]
      · simp
      · rcases jsOr_cases d.Long (jsOr d.Lng d.Longitude) with h4 | h4 <;> rw [h4]
        · simp
        · rcases jsOr_cases d.Lng d.Longitude with h5 | h5 <;> rw [h5] <;> simp

theorem resolveLong_eq_some_mem (d : RawBuildingData) (v : ℚ)
    (h : resolveLong d = some v) : some v ∈ longCandidates d := by
  unfold resolveLong at h
  cases hraw : resolveLongRaw d with
  | some w =>
    rw [hraw] at h
    have hmem := resolveLongRaw_mem d
    rw [hraw] at hmem
    cases d.coordinates <;> simp only [] at h <;>
      · rw [h] at hmem
        exact List.mem_append_left _ hmem
  | none =>
    rw [hraw] at h
    cases hc : d.coordinates with
    | none =>
      rw [hc] at h
      exact absurd h (by simp)
    | some c =>
      rw [hc] at h
      simp only [] at h
      have hmem : some v ∈ [c.long, c.lng, c.longitude] := by
        rcases jsOr_cases c.long (jsOr c.lng c.longitude) with h1 | h1
        · rw [h1] at h
          simp [← h]
        · rw [h1] at h
          rcases jsOr_cases c.lng c.longitude with h2 | h2 <;> rw [h2] at h <;>
            simp [← h]
      unfold longCandidates
      rw [hc]
      exact List.mem_append_right _ hmem

theorem normalizeCoordinates_some (la lo : ℚ) (d : RawBuildingData)
    (hla : resolveLat d = some la) (hlo : resolveLong d = some lo)
    (hcond : ¬(la < -90 ∨ 90 < la ∨ lo < -180 ∨ 180 < lo)) :
    normalizeCoordinates d = (la, lo, false) := by
  unfold normalizeCoordinates
  rw [hla, hlo]
  exact if_neg hcond

theorem resolveLong_Long_only (d : RawBuildingData) (w : ℚ) (hw : w ≠ 0)
    (h1 : d.long = none) (h2 : d.lng = none) (h3 : d.longitude = none)
    (h4 : d.Long = some w) (h5 : d.Lng = none) (h6 : d.Longitude = none) :
    resolveLong d = some w := by
  have hr : resolveLongRaw d = some w := by
    unfold resolveLongRaw
    rw [h1, h2, h3, h4, h5, h6]
    show jsOr (some w) (jsOr none none) = some w
    unfold jsOr
    exact if_neg hw
  unfold resolveLong
  rw [hr]

theorem exampleRawRec_normalizes :
    normalizeCoordinates exampleRawRec = (25/2, 771/10, false) := by
  have hlat : resolveLat exampleRawRec = some (25/2) := rfl
  have hlong : resolveLong exampleRawRec = some (771/10) :=
    resolveLong_Long_only exampleRawRec (771/10) (by norm_num)
      rfl rfl rfl rfl rfl rfl
  exact normalizeCoordinates_some (25/2) (771/10) exampleRawRec hlat hlong
    (by norm_num)

/-- C9. Coordinate normalization resolves variants in the fixed priority
order and never fails: the record carrying only Latitude 12.5 and Long 77.1
normalizes to (12.5, 77.1); and whenever no field combination can yield
in-range coordinates — every latitude candidate, or every longitude
candidate, is absent or out of range — the result is the default location
with the needs-correction flag set. -/
theorem normalizeCoordinates_ok (d : RawBuildingData)
    (h : (∀ o ∈ latCandidates d, invalidLatCandidate o = true) ∨
         (∀ o ∈ longCandidates d, invalidLongCandidate o = true)) :
    normalizeCoordinates exampleRawRec = (25/2, 771/10, false) ∧
    normalizeCoordinates d = (defaultLat, defaultLong, true) := by
  refine ⟨exampleRawRec_normalizes, ?_⟩
  unfold normalizeCoordinates
  rcases h with h | h
  · cases hl : resolveLat d with
    | none => cases hlo : resolveLong d <;> simp
    | some v =>
      have hv := h (some v) (resolveLat_eq_some_mem d v hl)
      simp only [invalidLatCandidate, decide_eq_true_eq] at hv
      cases hlo : resolveLong d with
      | none => simp
      | some w =>
        simp only []
        rcases hv with hv | hv
        · rw [if_pos (Or.inl hv)]
        · rw [if_pos (Or.inr (Or.inl hv))]
  · cases hlo : resolveLong d with
    | none => cases hl : resolveLat d <;> simp
    | some w =>
      have hv := h (some w) (resolveLong_eq_some_mem d w hlo)
      simp only [invalidLongCandidate, decide_eq_true_eq] at hv
      cases hl : resolveLat d with
      | none => simp
      | some v =>
        simp only []
        rcases hv with hv | hv
        · rw [if_pos (Or.inr (Or.inr (Or.inl hv)))]
        · rw [if_pos (Or.inr (Or.inr (Or.inr hv)))]

/-- C9 witness: the normalization statement instantiated at the record with
every field absent (every latitude candidate is invalid). -/
theorem normalizeCoordinates_ok_witness :
    ((∀ o ∈ latCandidates emptyRaw, invalidLatCandidate o = true) ∨
     (∀ o ∈ longCandidates emptyRaw, invalidLongCandidate o = true)) ∧
    (normalizeCoordinates exampleRawRec = (25/2, 771/10, false) ∧
     normalizeCoordinates emptyRaw = (defaultLat, defaultLong, true)) :=
  ⟨Or.inl (by decide), normalizeCoordinates_ok emptyRaw (Or.inl (by decide))⟩

/-- Record carrying latitude 0 in the `lat` field only, plus a longitude. -/
def recLatZero (w : ℚ) : RawBuildingData :=
  { emptyRaw with lat := some 0, Long := some w }

/-- Record carrying latitude 0 in the `latitude` field only, plus a
longitude. -/
def recLatitudeZero (w : ℚ) : RawBuildingData :=
  { emptyRaw with latitude := some 0, Long := some w }

/-- Record carrying latitude 0 in the `Lat` field only, plus a longitude. -/
def recCapLatZero (w : ℚ) : RawBuildingData :=
  { emptyRaw with Lat := some 0, Long := some w }

/-- Record carrying latitude 0 in the `Latitude` field only (the final
operand of the resolution chain), plus a longitude. -/
def recCapLatitudeZero (w : ℚ) : RawBuildingData :=
  { emptyRaw with Latitude := some 0, Long := some w }

/-- C10 counterexample. A record whose only latitude variant is
`Latitude: 0` keeps latitude 0: the `||` chain returns its final operand even
when it is falsy, so the claimed fallback to the default location does not
happen for this variant. -/
theorem zero_latitude_kept_cex :
    normalizeCoordinates (recCapLatitudeZero (771/10)) = (0, 771/10, false) ∧
    (0 : ℚ) ≠ defaultLat ∧ (771/10 : ℚ) ≠ defaultLong := by
  refine ⟨?_, by norm_num [defaultLat], by norm_num [defaultLong]⟩
  have hlat : resolveLat (recCapLatitudeZero (771/10)) = some 0 := rfl
  have hlong : resolveLong (recCapLatitudeZero (771/10)) = some (771/10) :=
    resolveLong_Long_only _ (771/10) (by norm_num) rfl rfl rfl rfl rfl rfl
  exact normalizeCoordinates_some 0 (771/10) _ hlat hlong (by norm_num)

/-- C10 (amended). Truthiness-based resolution treats 0 as missing for the
latitude variants `lat`, `latitude` and `Lat`: a record carrying 0 there
(and no other variant) falls back to the default location with the
needs-correction flag. But because `||` returns its final operand even when
falsy, a record carrying `Latitude: 0` with a valid nonzero longitude keeps
the coordinates (0, long). -/
theorem zero_coordinate_truthiness (w : ℚ) (hw : w ≠ 0)
    (h1 : -180 ≤ w) (h2 : w ≤ 180) :
    normalizeCoordinates (recLatZero w) = (defaultLat, defaultLong, true) ∧
    normalizeCoordinates (recLatitudeZero w) = (defaultLat, defaultLong, true) ∧
    normalizeCoordinates (recCapLatZero w) = (defaultLat, defaultLong, true) ∧
    normalizeCoordinates (recCapLatitudeZero w) = (0, w, false) := by
  refine ⟨rfl, rfl, rfl, ?_⟩
  have hlat : resolveLat (recCapLatitudeZero w) = some 0 := rfl
  have hlong : resolveLong (recCapLatitudeZero w) = some w :=
    resolveLong_Long_only _ w hw rfl rfl rfl rfl rfl rfl
  refine normalizeCoordinates_some 0 w _ hlat hlong ?_
  push_neg
  exact ⟨by norm_num, by norm_num, h1, h2⟩

/-- C10 witness: the truthiness statement instantiated at longitude 77.1. -/
theorem zero_coordinate_truthiness_witness :
    ((771/10 : ℚ) ≠ 0 ∧ (-180 : ℚ) ≤ 771/10 ∧ (771/10 : ℚ) ≤ 180) ∧
    (normalizeCoordinates (recLatZero (771/10)) = (defaultLat, defaultLong, true) ∧
     normalizeCoordinates (recLatitudeZero (771/10)) = (defaultLat, defaultLong, true) ∧
     normalizeCoordinates (recCapLatZero (771/10)) = (defaultLat, defaultLong, true) ∧
     normalizeCoordinates (recCapLatitudeZero (771/10)) = (0, 771/10, false)) :=
  ⟨⟨by norm_num, by norm_num, by norm_num⟩,
   zero_coordinate_truthiness (771/10) (by norm_num) (by norm_num) (by norm_num)⟩
